import Mathlib

/-!
# Verification of the XLog remote-file-backed profile and transcript store

Shallow embedding of the store subsystem of the XLog repository
(`source/yadisk_client.py` and `source/profile_manager.py`) together with
theorems settling the specification claims about it.

Modelling conventions:
* Text decoded from the remote store is modelled as its sequence of Unicode
  code points (`List Nat`); raw file contents are byte sequences (`List Nat`,
  each element `< 256`).
* Decoded-text level state (used by the profile manager) is modelled as
  `String`-valued functions from remote paths.
* Python code that raises an exception across the boundary being modelled is
  represented with `Option`: `none` means the call raised.
-/

namespace XLog

/-! ## Encoding recovery (`yadisk_client.py`)

`bytes.decode('utf-8')` in strict mode: standard UTF-8, rejecting overlong
forms, surrogate code points and code points above `0x10FFFF`. -/

/-- UTF-8 encoding of a single Unicode scalar value (what Python's
`str.encode('utf-8')` produces character by character). -/
def utf8EncodeChar (c : Nat) : List Nat :=
  if c < 0x80 then [c]
  else if c < 0x800 then [0xC0 + c / 0x40, 0x80 + c % 0x40]
  else if c < 0x10000 then
    [0xE0 + c / 0x1000, 0x80 + c / 0x40 % 0x40, 0x80 + c % 0x40]
  else
    [0xF0 + c / 0x40000, 0x80 + c / 0x1000 % 0x40, 0x80 + c / 0x40 % 0x40,
      0x80 + c % 0x40]

/-- UTF-8 encoding of a text (sequence of code points). -/
def utf8Encode : List Nat → List Nat
  | [] => []
  | c :: cs => utf8EncodeChar c ++ utf8Encode cs

/-- A Unicode scalar value: a code point below `0x110000` that is not a
surrogate.  Python `str` values consist of such code points. -/
def ValidScalar (c : Nat) : Prop :=
  c < 0x110000 ∧ ¬(0xD800 ≤ c ∧ c ≤ 0xDFFF)

instance : DecidablePred ValidScalar := fun _ => by unfold ValidScalar; infer_instance

/-- Decode one UTF-8 sequence from the front of a byte list, strictly:
returns the decoded code point and the remaining bytes, or `none` on
malformed input (truncated sequence, stray continuation byte, overlong
form, surrogate, or out-of-range lead byte). -/
def decodeOne : List Nat → Option (Nat × List Nat)
  | [] => none
  | b1 :: rest =>
    if b1 < 0x80 then some (b1, rest)
    else if b1 < 0xC2 then none
    else if b1 < 0xE0 then
      match rest with
      | b2 :: rest2 =>
        if 0x80 ≤ b2 ∧ b2 ≤ 0xBF then
          some ((b1 - 0xC0) * 0x40 + (b2 - 0x80), rest2)
        else none
      | [] => none
    else if b1 < 0xF0 then
      match rest with
      | b2 :: b3 :: rest3 =>
        if (if b1 = 0xE0 then 0xA0 else 0x80) ≤ b2 ∧
            b2 ≤ (if b1 = 0xED then 0x9F else 0xBF) ∧
            0x80 ≤ b3 ∧ b3 ≤ 0xBF then
          some ((b1 - 0xE0) * 0x1000 + (b2 - 0x80) * 0x40 + (b3 - 0x80), rest3)
        else none
      | _ => none
    else if b1 < 0xF5 then
      match rest with
      | b2 :: b3 :: b4 :: rest4 =>
        if (if b1 = 0xF0 then 0x90 else 0x80) ≤ b2 ∧
            b2 ≤ (if b1 = 0xF4 then 0x8F else 0xBF) ∧
            0x80 ≤ b3 ∧ b3 ≤ 0xBF ∧ 0x80 ≤ b4 ∧ b4 ≤ 0xBF then
          some ((b1 - 0xF0) * 0x40000 + (b2 - 0x80) * 0x1000 +
            (b3 - 0x80) * 0x40 + (b4 - 0x80), rest4)
        else none
      | _ => none
    else none

/-- Strict UTF-8 decoding, fuelled (each step consumes at least one byte, so
fuel equal to the byte count always suffices; see `decodeOne_length`). -/
def utf8DecodeAux : Nat → List Nat → Option (List Nat)
  | _, [] => some []
  | 0, _ :: _ => none
  | fuel + 1, l =>
    match decodeOne l with
    | some (c, rest) => (utf8DecodeAux fuel rest).map (c :: ·)
    | none => none

/-- Python's `raw.decode('utf-8')` (strict): `some` of the decoded code
points, `none` when a `UnicodeDecodeError` would be raised. -/
def utf8Decode (l : List Nat) : Option (List Nat) :=
  utf8DecodeAux l.length l

/-- Decoding with `errors='ignore'`, fuelled: decode each valid UTF-8
sequence and skip one byte at every malformed position.  Total — it cannot
fail on any byte input. -/
def utf8IgnoreAux : Nat → List Nat → List Nat
  | _, [] => []
  | 0, _ :: _ => []
  | fuel + 1, l =>
    match decodeOne l with
    | some (c, rest) => c :: utf8IgnoreAux fuel rest
    | none => utf8IgnoreAux fuel l.tail

/-- Python's `raw.decode('utf-8', errors='ignore')`: lossy, total. -/
def utf8DecodeIgnore (l : List Nat) : List Nat :=
  utf8IgnoreAux l.length l

/-- Byte-to-code-point table of the Windows-1251 codec (entry `none` where the byte is
undefined, so that a strict decode of that byte fails). -/
def cp1251Table : List (Option Nat) :=
  [   some 0x0000, some 0x0001, some 0x0002, some 0x0003, some 0x0004, some 0x0005, some 0x0006, some 0x0007,
     some 0x0008, some 0x0009, some 0x000A, some 0x000B, some 0x000C, some 0x000D, some 0x000E, some 0x000F,
     some 0x0010, some 0x0011, some 0x0012, some 0x0013, some 0x0014, some 0x0015, some 0x0016, some 0x0017,
     some 0x0018, some 0x0019, some 0x001A, some 0x001B, some 0x001C, some 0x001D, some 0x001E, some 0x001F,
     some 0x0020, some 0x0021, some 0x0022, some 0x0023, some 0x0024, some 0x0025, some 0x0026, some 0x0027,
     some 0x0028, some 0x0029, some 0x002A, some 0x002B, some 0x002C, some 0x002D, some 0x002E, some 0x002F,
     some 0x0030, some 0x0031, some 0x0032, some 0x0033, some 0x0034, some 0x0035, some 0x0036, some 0x0037,
     some 0x0038, some 0x0039, some 0x003A, some 0x003B, some 0x003C, some 0x003D, some 0x003E, some 0x003F,
     some 0x0040, some 0x0041, some 0x0042, some 0x0043, some 0x0044, some 0x0045, some 0x0046, some 0x0047,
     some 0x0048, some 0x0049, some 0x004A, some 0x004B, some 0x004C, some 0x004D, some 0x004E, some 0x004F,
     some 0x0050, some 0x0051, some 0x0052, some 0x0053, some 0x0054, some 0x0055, some 0x0056, some 0x0057,
     some 0x0058, some 0x0059, some 0x005A, some 0x005B, some 0x005C, some 0x005D, some 0x005E, some 0x005F,
     some 0x0060, some 0x0061, some 0x0062, some 0x0063, some 0x0064, some 0x0065, some 0x0066, some 0x0067,
     some 0x0068, some 0x0069, some 0x006A, some 0x006B, some 0x006C, some 0x006D, some 0x006E, some 0x006F,
     some 0x0070, some 0x0071, some 0x0072, some 0x0073, some 0x0074, some 0x0075, some 0x0076, some 0x0077,
     some 0x0078, some 0x0079, some 0x007A, some 0x007B, some 0x007C, some 0x007D, some 0x007E, some 0x007F,
     some 0x0402, some 0x0403, some 0x201A, some 0x0453, some 0x201E, some 0x2026, some 0x2020, some 0x2021,
     some 0x20AC, some 0x2030, some 0x0409, some 0x2039, some 0x040A, some 0x040C, some 0x040B, some 0x040F,
     some 0x0452, some 0x2018, some 0x2019, some 0x201C, some 0x201D, some 0x2022, some 0x2013, some 0x2014,
     none, some 0x2122, some 0x0459, some 0x203A, some 0x045A, some 0x045C, some 0x045B, some 0x045F,
     some 0x00A0, some 0x040E, some 0x045E, some 0x0408, some 0x00A4, some 0x0490, some 0x00A6, some 0x00A7,
     some 0x0401, some 0x00A9, some 0x0404, some 0x00AB, some 0x00AC, some 0x00AD, some 0x00AE, some 0x0407,
     some 0x00B0, some 0x00B1, some 0x0406, some 0x0456, some 0x0491, some 0x00B5, some 0x00B6, some 0x00B7,
     some 0x0451, some 0x2116, some 0x0454, some 0x00BB, some 0x0458, some 0x0405, some 0x0455, some 0x0457,
     some 0x0410, some 0x0411, some 0x0412, some 0x0413, some 0x0414, some 0x0415, some 0x0416, some 0x0417,
     some 0x0418, some 0x0419, some 0x041A, some 0x041B, some 0x041C, some 0x041D, some 0x041E, some 0x041F,
     some 0x0420, some 0x0421, some 0x0422, some 0x0423, some 0x0424, some 0x0425, some 0x0426, some 0x0427,
     some 0x0428, some 0x0429, some 0x042A, some 0x042B, some 0x042C, some 0x042D, some 0x042E, some 0x042F,
     some 0x0430, some 0x0431, some 0x0432, some 0x0433, some 0x0434, some 0x0435, some 0x0436, some 0x0437,
     some 0x0438, some 0x0439, some 0x043A, some 0x043B, some 0x043C, some 0x043D, some 0x043E, some 0x043F,
     some 0x0440, some 0x0441, some 0x0442, some 0x0443, some 0x0444, some 0x0445, some 0x0446, some 0x0447,
     some 0x0448, some 0x0449, some 0x044A, some 0x044B, some 0x044C, some 0x044D, some 0x044E, some 0x044F]

/-- Byte-to-code-point table of the KOI8-R codec (entry `none` where the byte is
undefined, so that a strict decode of that byte fails). -/
def koi8rTable : List (Option Nat) :=
  [   some 0x0000, some 0x0001, some 0x0002, some 0x0003, some 0x0004, some 0x0005, some 0x0006, some 0x0007,
     some 0x0008, some 0x0009, some 0x000A, some 0x000B, some 0x000C, some 0x000D, some 0x000E, some 0x000F,
     some 0x0010, some 0x0011, some 0x0012, some 0x0013, some 0x0014, some 0x0015, some 0x0016, some 0x0017,
     some 0x0018, some 0x0019, some 0x001A, some 0x001B, some 0x001C, some 0x001D, some 0x001E, some 0x001F,
     some 0x0020, some 0x0021, some 0x0022, some 0x0023, some 0x0024, some 0x0025, some 0x0026, some 0x0027,
     some 0x0028, some 0x0029, some 0x002A, some 0x002B, some 0x002C, some 0x002D, some 0x002E, some 0x002F,
     some 0x0030, some 0x0031, some 0x0032, some 0x0033, some 0x0034, some 0x0035, some 0x0036, some 0x0037,
     some 0x0038, some 0x0039, some 0x003A, some 0x003B, some 0x003C, some 0x003D, some 0x003E, some 0x003F,
     some 0x0040, some 0x0041, some 0x0042, some 0x0043, some 0x0044, some 0x0045, some 0x0046, some 0x0047,
     some 0x0048, some 0x0049, some 0x004A, some 0x004B, some 0x004C, some 0x004D, some 0x004E, some 0x004F,
     some 0x0050, some 0x0051, some 0x0052, some 0x0053, some 0x0054, some 0x0055, some 0x0056, some 0x0057,
     some 0x0058, some 0x0059, some 0x005A, some 0x005B, some 0x005C, some 0x005D, some 0x005E, some 0x005F,
     some 0x0060, some 0x0061, some 0x0062, some 0x0063, some 0x0064, some 0x0065, some 0x0066, some 0x0067,
     some 0x0068, some 0x0069, some 0x006A, some 0x006B, some 0x006C, some 0x006D, some 0x006E, some 0x006F,
     some 0x0070, some 0x0071, some 0x0072, some 0x0073, some 0x0074, some 0x0075, some 0x0076, some 0x0077,
     some 0x0078, some 0x0079, some 0x007A, some 0x007B, some 0x007C, some 0x007D, some 0x007E, some 0x007F,
     some 0x2500, some 0x2502, some 0x250C, some 0x2510, some 0x2514, some 0x2518, some 0x251C, some 0x2524,
     some 0x252C, some 0x2534, some 0x253C, some 0x2580, some 0x2584, some 0x2588, some 0x258C, some 0x2590,
     some 0x2591, some 0x2592, some 0x2593, some 0x2320, some 0x25A0, some 0x2219, some 0x221A, some 0x2248,
     some 0x2264, some 0x2265, some 0x00A0, some 0x2321, some 0x00B0, some 0x00B2, some 0x00B7, some 0x00F7,
     some 0x2550, some 0x2551, some 0x2552, some 0x0451, some 0x2553, some 0x2554, some 0x2555, some 0x2556,
     some 0x2557, some 0x2558, some 0x2559, some 0x255A, some 0x255B, some 0x255C, some 0x255D, some 0x255E,
     some 0x255F, some 0x2560, some 0x2561, some 0x0401, some 0x2562, some 0x2563, some 0x2564, some 0x2565,
     some 0x2566, some 0x2567, some 0x2568, some 0x2569, some 0x256A, some 0x256B, some 0x256C, some 0x00A9,
     some 0x044E, some 0x0430, some 0x0431, some 0x0446, some 0x0434, some 0x0435, some 0x0444, some 0x0433,
     some 0x0445, some 0x0438, some 0x0439, some 0x043A, some 0x043B, some 0x043C, some 0x043D, some 0x043E,
     some 0x043F, some 0x044F, some 0x0440, some 0x0441, some 0x0442, some 0x0443, some 0x0436, some 0x0432,
     some 0x044C, some 0x044B, some 0x0437, some 0x0448, some 0x044D, some 0x0449, some 0x0447, some 0x044A,
     some 0x042E, some 0x0410, some 0x0411, some 0x0426, some 0x0414, some 0x0415, some 0x0424, some 0x0413,
     some 0x0425, some 0x0418, some 0x0419, some 0x041A, some 0x041B, some 0x041C, some 0x041D, some 0x041E,
     some 0x041F, some 0x042F, some 0x0420, some 0x0421, some 0x0422, some 0x0423, some 0x0416, some 0x0412,
     some 0x042C, some 0x042B, some 0x0417, some 0x0428, some 0x042D, some 0x0429, some 0x0427, some 0x042A]

/-- Byte-to-code-point table of the CP866 codec (entry `none` where the byte is
undefined, so that a strict decode of that byte fails). -/
def cp866Table : List (Option Nat) :=
  [   some 0x0000, some 0x0001, some 0x0002, some 0x0003, some 0x0004, some 0x0005, some 0x0006, some 0x0007,
     some 0x0008, some 0x0009, some 0x000A, some 0x000B, some 0x000C, some 0x000D, some 0x000E, some 0x000F,
     some 0x0010, some 0x0011, some 0x0012, some 0x0013, some 0x0014, some 0x0015, some 0x0016, some 0x0017,
     some 0x0018, some 0x0019, some 0x001A, some 0x001B, some 0x001C, some 0x001D, some 0x001E, some 0x001F,
     some 0x0020, some 0x0021, some 0x0022, some 0x0023, some 0x0024, some 0x0025, some 0x0026, some 0x0027,
     some 0x0028, some 0x0029, some 0x002A, some 0x002B, some 0x002C, some 0x002D, some 0x002E, some 0x002F,
     some 0x0030, some 0x0031, some 0x0032, some 0x0033, some 0x0034, some 0x0035, some 0x0036, some 0x0037,
     some 0x0038, some 0x0039, some 0x003A, some 0x003B, some 0x003C, some 0x003D, some 0x003E, some 0x003F,
     some 0x0040, some 0x0041, some 0x0042, some 0x0043, some 0x0044, some 0x0045, some 0x0046, some 0x0047,
     some 0x0048, some 0x0049, some 0x004A, some 0x004B, some 0x004C, some 0x004D, some 0x004E, some 0x004F,
     some 0x0050, some 0x0051, some 0x0052, some 0x0053, some 0x0054, some 0x0055, some 0x0056, some 0x0057,
     some 0x0058, some 0x0059, some 0x005A, some 0x005B, some 0x005C, some 0x005D, some 0x005E, some 0x005F,
     some 0x0060, some 0x0061, some 0x0062, some 0x0063, some 0x0064, some 0x0065, some 0x0066, some 0x0067,
     some 0x0068, some 0x0069, some 0x006A, some 0x006B, some 0x006C, some 0x006D, some 0x006E, some 0x006F,
     some 0x0070, some 0x0071, some 0x0072, some 0x0073, some 0x0074, some 0x0075, some 0x0076, some 0x0077,
     some 0x0078, some 0x0079, some 0x007A, some 0x007B, some 0x007C, some 0x007D, some 0x007E, some 0x007F,
     some 0x0410, some 0x0411, some 0x0412, some 0x0413, some 0x0414, some 0x0415, some 0x0416, some 0x0417,
     some 0x0418, some 0x0419, some 0x041A, some 0x041B, some 0x041C, some 0x041D, some 0x041E, some 0x041F,
     some 0x0420, some 0x0421, some 0x0422, some 0x0423, some 0x0424, some 0x0425, some 0x0426, some 0x0427,
     some 0x0428, some 0x0429, some 0x042A, some 0x042B, some 0x042C, some 0x042D, some 0x042E, some 0x042F,
     some 0x0430, some 0x0431, some 0x0432, some 0x0433, some 0x0434, some 0x0435, some 0x0436, some 0x0437,
     some 0x0438, some 0x0439, some 0x043A, some 0x043B, some 0x043C, some 0x043D, some 0x043E, some 0x043F,
     some 0x2591, some 0x2592, some 0x2593, some 0x2502, some 0x2524, some 0x2561, some 0x2562, some 0x2556,
     some 0x2555, some 0x2563, some 0x2551, some 0x2557, some 0x255D, some 0x255C, some 0x255B, some 0x2510,
     some 0x2514, some 0x2534, some 0x252C, some 0x251C, some 0x2500, some 0x253C, some 0x255E, some 0x255F,
     some 0x255A, some 0x2554, some 0x2569, some 0x2566, some 0x2560, some 0x2550, some 0x256C, some 0x2567,
     some 0x2568, some 0x2564, some 0x2565, some 0x2559, some 0x2558, some 0x2552, some 0x2553, some 0x256B,
     some 0x256A, some 0x2518, some 0x250C, some 0x2588, some 0x2584, some 0x258C, some 0x2590, some 0x2580,
     some 0x0440, some 0x0441, some 0x0442, some 0x0443, some 0x0444, some 0x0445, some 0x0446, some 0x0447,
     some 0x0448, some 0x0449, some 0x044A, some 0x044B, some 0x044C, some 0x044D, some 0x044E, some 0x044F,
     some 0x0401, some 0x0451, some 0x0404, some 0x0454, some 0x0407, some 0x0457, some 0x040E, some 0x045E,
     some 0x00B0, some 0x2219, some 0x00B7, some 0x221A, some 0x2116, some 0x00A4, some 0x25A0, some 0x00A0]

/-- Byte-to-code-point table of the ISO-8859-5 codec (entry `none` where the byte is
undefined, so that a strict decode of that byte fails). -/
def iso88595Table : List (Option Nat) :=
  [   some 0x0000, some 0x0001, some 0x0002, some 0x0003, some 0x0004, some 0x0005, some 0x0006, some 0x0007,
     some 0x0008, some 0x0009, some 0x000A, some 0x000B, some 0x000C, some 0x000D, some 0x000E, some 0x000F,
     some 0x0010, some 0x0011, some 0x0012, some 0x0013, some 0x0014, some 0x0015, some 0x0016, some 0x0017,
     some 0x0018, some 0x0019, some 0x001A, some 0x001B, some 0x001C, some 0x001D, some 0x001E, some 0x001F,
     some 0x0020, some 0x0021, some 0x0022, some 0x0023, some 0x0024, some 0x0025, some 0x0026, some 0x0027,
     some 0x0028, some 0x0029, some 0x002A, some 0x002B, some 0x002C, some 0x002D, some 0x002E, some 0x002F,
     some 0x0030, some 0x0031, some 0x0032, some 0x0033, some 0x0034, some 0x0035, some 0x0036, some 0x0037,
     some 0x0038, some 0x0039, some 0x003A, some 0x003B, some 0x003C, some 0x003D, some 0x003E, some 0x003F,
     some 0x0040, some 0x0041, some 0x0042, some 0x0043, some 0x0044, some 0x0045, some 0x0046, some 0x0047,
     some 0x0048, some 0x0049, some 0x004A, some 0x004B, some 0x004C, some 0x004D, some 0x004E, some 0x004F,
     some 0x0050, some 0x0051, some 0x0052, some 0x0053, some 0x0054, some 0x0055, some 0x0056, some 0x0057,
     some 0x0058, some 0x0059, some 0x005A, some 0x005B, some 0x005C, some 0x005D, some 0x005E, some 0x005F,
     some 0x0060, some 0x0061, some 0x0062, some 0x0063, some 0x0064, some 0x0065, some 0x0066, some 0x0067,
     some 0x0068, some 0x0069, some 0x006A, some 0x006B, some 0x006C, some 0x006D, some 0x006E, some 0x006F,
     some 0x0070, some 0x0071, some 0x0072, some 0x0073, some 0x0074, some 0x0075, some 0x0076, some 0x0077,
     some 0x0078, some 0x0079, some 0x007A, some 0x007B, some 0x007C, some 0x007D, some 0x007E, some 0x007F,
     some 0x0080, some 0x0081, some 0x0082, some 0x0083, some 0x0084, some 0x0085, some 0x0086, some 0x0087,
     some 0x0088, some 0x0089, some 0x008A, some 0x008B, some 0x008C, some 0x008D, some 0x008E, some 0x008F,
     some 0x0090, some 0x0091, some 0x0092, some 0x0093, some 0x0094, some 0x0095, some 0x0096, some 0x0097,
     some 0x0098, some 0x0099, some 0x009A, some 0x009B, some 0x009C, some 0x009D, some 0x009E, some 0x009F,
     some 0x00A0, some 0x0401, some 0x0402, some 0x0403, some 0x0404, some 0x0405, some 0x0406, some 0x0407,
     some 0x0408, some 0x0409, some 0x040A, some 0x040B, some 0x040C, some 0x00AD, some 0x040E, some 0x040F,
     some 0x0410, some 0x0411, some 0x0412, some 0x0413, some 0x0414, some 0x0415, some 0x0416, some 0x0417,
     some 0x0418, some 0x0419, some 0x041A, some 0x041B, some 0x041C, some 0x041D, some 0x041E, some 0x041F,
     some 0x0420, some 0x0421, some 0x0422, some 0x0423, some 0x0424, some 0x0425, some 0x0426, some 0x0427,
     some 0x0428, some 0x0429, some 0x042A, some 0x042B, some 0x042C, some 0x042D, some 0x042E, some 0x042F,
     some 0x0430, some 0x0431, some 0x0432, some 0x0433, some 0x0434, some 0x0435, some 0x0436, some 0x0437,
     some 0x0438, some 0x0439, some 0x043A, some 0x043B, some 0x043C, some 0x043D, some 0x043E, some 0x043F,
     some 0x0440, some 0x0441, some 0x0442, some 0x0443, some 0x0444, some 0x0445, some 0x0446, some 0x0447,
     some 0x0448, some 0x0449, some 0x044A, some 0x044B, some 0x044C, some 0x044D, some 0x044E, some 0x044F,
     some 0x2116, some 0x0451, some 0x0452, some 0x0453, some 0x0454, some 0x0455, some 0x0456, some 0x0457,
     some 0x0458, some 0x0459, some 0x045A, some 0x045B, some 0x045C, some 0x00A7, some 0x045E, some 0x045F]


/-- Strict single-byte decoding through a codec table (Python's
`raw.decode(enc)` for a single-byte codec): every byte is looked up in the
table; an undefined byte raises `UnicodeDecodeError`, modelled as `none`. -/
def decodeTable (t : List (Option Nat)) (raw : List Nat) : Option (List Nat) :=
  raw.mapM (fun b => (t.get? b).getD none)

/-- The "good" characters of `YandexDiskClient._looks_like_text`: letters,
digits, whitespace, the punctuation characters of the literal
`,.!?-;:"()[]\x7b\x7d`, and anything in the Cyrillic Unicode block
`U+0400`..`U+04FF`.  Python's `isalpha`/`isdigit`/`isspace` are
Unicode-wide; this embedding restricts the letter/digit/space classes to
their ASCII portion, which coincides with Python's classification on every
character reasoned about in this development (all non-ASCII characters that
occur are either in the Cyrillic block, which the source tests explicitly,
or are symbols that Python also classifies as not good). -/
def goodChar (c : Nat) : Bool :=
  (0x41 ≤ c && c ≤ 0x5A) || (0x61 ≤ c && c ≤ 0x7A) ||   -- ASCII letters
  (0x30 ≤ c && c ≤ 0x39) ||                               -- ASCII digits
  (c = 0x20 || c = 0x09 || c = 0x0A || c = 0x0D || c = 0x0B || c = 0x0C) ||
  [0x2C, 0x2E, 0x21, 0x3F, 0x2D, 0x3B, 0x3A, 0x22, 0x28, 0x29,
    0x5B, 0x5D, 0x7B, 0x7D].contains c ||                 -- punctuation literal
  (0x400 ≤ c && c ≤ 0x4FF)                                -- Cyrillic block

/-- Heuristic `YandexDiskClient._looks_like_text`: texts shorter than 10 characters
are always accepted; otherwise at most the first 1000 characters are
examined and the text is accepted when good/total > 0.6 (stated
integrally: `10 * good > 6 * total`). -/
def looks_like_text (t : List Nat) : Bool :=
  if t.length < 10 then true
  else
    let sample := t.take 1000
    10 * (sample.filter goodChar).length > 6 * sample.length

/-- Strip one leading byte-order mark, as
`if content and content.startswith(BOM): content = content[1:]`. -/
def stripBOM (t : List Nat) : List Nat :=
  match t with
  | [] => []
  | c :: rest => if c = 0xFEFF then rest else c :: rest

/-- The fixed ordered codec list of `YandexDiskClient._fallback_decode`:
UTF-8, Windows-1251, KOI8-R, CP866, ISO-8859-5, each as a strict
byte-sequence decoder. -/
def fallbackCodecs : List (List Nat → Option (List Nat)) :=
  [utf8Decode, decodeTable cp1251Table, decodeTable koi8rTable,
    decodeTable cp866Table, decodeTable iso88595Table]

/-- The codec loop of `_fallback_decode`: try each codec in order; on a
strict-decode success, accept the first whose output passes
`looks_like_text` (returning it with a leading BOM stripped); on a decode
error or a failed heuristic, move on to the next codec. -/
def tryCodecs : List (List Nat → Option (List Nat)) → List Nat → Option (List Nat)
  | [], _ => none
  | d :: ds, raw =>
    match d raw with
    | some content =>
      if looks_like_text content then some (stripBOM content)
      else tryCodecs ds raw
    | none => tryCodecs ds raw

/-- Cascade `YandexDiskClient._fallback_decode`: the codec loop, then the terminal
`raw.decode('utf-8', errors='ignore')`, which is total, so the source's
final `except: return None` branch is never taken (the result type is still
`Option` to mirror the source's `Optional[str]` signature). -/
def fallback_decode (raw : List Nat) : Option (List Nat) :=
  match tryCodecs fallbackCodecs raw with
  | some content => some content
  | none => some (utf8DecodeIgnore raw)

/-! ## Remote store, byte level (`yadisk_client.py`)

`read_file` / `write_to_file` against a store mapping each remote path to
its state.  The charset detector is modelled as unavailable
(`CHARSET_DETECT_AVAILABLE = False`), which is the configuration in which
the repository's own decoding code (the fallback cascade) runs. -/

/-- State of one remote path: no file, a file with raw byte content, or a
path whose existence check / download raises a transport error. -/
inductive PathState where
  | absent : PathState
  | present : List Nat → PathState
  | faulty : PathState
deriving DecidableEq

/-- The remote store: byte contents by path. -/
def ByteStore := String → PathState

/-- Operation `YandexDiskClient.read_file` with the charset detector unavailable:
`none` when the file does not exist, `none` when a transport error is
raised during the operation (caught and converted), otherwise the fallback
decoding of the downloaded bytes. -/
def read_file (store : ByteStore) (path : String) : Option (List Nat) :=
  match store path with
  | PathState.absent => none
  | PathState.faulty => none
  | PathState.present raw => fallback_decode raw

/-- Operation `YandexDiskClient.write_to_file` (successful path): upload the UTF-8
encoding of the content, overwriting. -/
def write_to_file (store : ByteStore) (path : String) (content : List Nat) :
    ByteStore :=
  fun p => if p = path then PathState.present (utf8Encode content) else store p


/-! ## Python string primitives

The profile manager manipulates decoded text with Python's `str.strip`,
`str.split`, `str.join` and `str.replace`.  These are embedded here as
executable functions on `String` (via its character list).  Stripping uses
the ASCII whitespace characters `' ', \t, \n, \r, \x0b, \x0c`; Python also
strips rare Unicode spaces, which never occur in this development. -/

def pyIsSpace (c : Char) : Bool :=
  c = ' ' || c = Char.ofNat 9 || c = Char.ofNat 10 || c = Char.ofNat 13 ||
  c = Char.ofNat 11 || c = Char.ofNat 12

/-- Python `str.strip()`. -/
def pyStrip (s : String) : String :=
  String.mk (((s.data.dropWhile pyIsSpace).reverse.dropWhile pyIsSpace).reverse)

/-- Python `str.split(sep)` for a one-character separator, on the character
list: split at every occurrence, keeping empty pieces
(`''.split(sep) == ['']`). -/
def splitCharAux (sep : Char) : List Char → List (List Char)
  | [] => [[]]
  | c :: cs =>
    match splitCharAux sep cs with
    | [] => [[c]]
    | p :: ps => if c = sep then [] :: p :: ps else (c :: p) :: ps

/-- Python `str.split('\n')`. -/
def pySplitNL (s : String) : List String :=
  (splitCharAux (Char.ofNat 10) s.data).map String.mk

/-- Python `str.split('/')` (also the behavior of the path split in
`ensure_folder_exists`). -/
def pySplitSlash (s : String) : List String :=
  (splitCharAux (Char.ofNat 47) s.data).map String.mk

/-- Python `sep.join(parts)`. -/
def joinWith (sep : String) : List String → String
  | [] => ""
  | [p] => p
  | p :: q :: ps => p ++ sep ++ joinWith sep (q :: ps)

/-- Python `s.replace(pat, '')` (remove all occurrences, scanning left to
right), fuelled by the string length — each step consumes at least one
character when `pat` is non-empty. -/
def removeAllAux (pat : List Char) : Nat → List Char → List Char
  | _, [] => []
  | 0, s => s
  | fuel + 1, c :: cs =>
    if pat.isPrefixOf (c :: cs) then removeAllAux pat fuel ((c :: cs).drop pat.length)
    else c :: removeAllAux pat fuel cs

/-- Python `s.replace(pat, '')`, as used by `file_name.replace('.txt', '')`. -/
def pyRemoveAll (pat s : String) : String :=
  String.mk (removeAllAux pat.data s.data.length s.data)

/-! ## Remote Object Store Adapter: directory materialization
(`YandexDiskClient.ensure_folder_exists`)

The remote directory structure is modelled as the list of absolute folder
paths that exist.  `mkdir` is guarded by an existence check in the source;
the underlying service errors when the parent of the created directory is
missing, which the walk prevents by creating the components in order — the
error case is modelled as stopping with result `false` (the exception is
caught and converted to `False` in the source). -/

/-- The component walk of `ensure_folder_exists`: empty parts are skipped;
for each component the path is extended, checked for existence and created
when missing.  Returns the updated directory structure and the success
flag. -/
def ensureParts (fs : List String) (current : String) :
    List String → List String × Bool
  | [] => (fs, true)
  | part :: rest =>
    if part = "" then ensureParts fs current rest
    else
      let next := current ++ "/" ++ part
      if next ∈ fs then ensureParts fs next rest
      else if current ∈ fs then ensureParts (next :: fs) next rest
      else (fs, false)

/-- Operation `YandexDiskClient.ensure_folder_exists`: split the relative path on `/`
and walk it component by component under `/<root_folder>`. -/
def ensure_folder_exists (rootFolder : String) (fs : List String)
    (remotePath : String) : List String × Bool :=
  ensureParts fs ("/" ++ rootFolder) (pySplitSlash remotePath)

/-- The absolute paths visited by the walk (every intermediate segment and
the leaf), in order. -/
def walkPaths (current : String) : List String → List String
  | [] => []
  | part :: rest =>
    if part = "" then walkPaths current rest
    else
      let next := current ++ "/" ++ part
      next :: walkPaths next rest

/-! ## Profile manager (`profile_manager.py`)

The profile manager calls `disk.read_file`, which returns `Optional[str]`.
`ReadOutcome` additionally models a read that raises, so that the
defensive handlers of `get_profile_files` (which catch
`UnicodeDecodeError` and any other exception) are exercised by the
theorems; `get_recent_messages` has no handler, so a raising read
propagates out of it (`none`). -/

/-- Outcome of one `disk.read_file` call as observed by the caller. -/
inductive ReadOutcome where
  | value : Option String → ReadOutcome
  | raiseDecode : ReadOutcome
  | raiseOther : ReadOutcome
deriving DecidableEq

/-- A read that fails to produce content: `read_file` returned `None`
(missing file), or the read raised (`UnicodeDecodeError` or any other
exception). -/
def failedRead : ReadOutcome → Bool
  | ReadOutcome.value (some _) => false
  | ReadOutcome.value none => true
  | ReadOutcome.raiseDecode => true
  | ReadOutcome.raiseOther => true

/-- A `disk.read_file` that never raises (the source's `read_file` catches
every exception internally), for composing the higher-level operations. -/
def liftRead (rv : String → Option String) : String → ReadOutcome :=
  fun p => ReadOutcome.value (rv p)

/-- Constant `ProfileManager.PROFILE_FILES`. -/
def PROFILE_FILES : List String :=
  ["key.txt", "king.txt", "rules.txt", "library.txt", "welcome.txt"]

/-- The per-asset body of `get_profile_files`: `files[key] = content` when
the read returned truthy content, otherwise the empty string; both
exception handlers also store the empty string. -/
def readResult : ReadOutcome → String
  | ReadOutcome.value (some c) => if c = "" then "" else c
  | ReadOutcome.value none => ""
  | ReadOutcome.raiseDecode => ""
  | ReadOutcome.raiseOther => ""

/-- Operation `ProfileManager.get_profile_files`: read all five assets defensively;
the result is the insertion-ordered dict, one entry per asset file, keyed
by the file name with `.txt` removed. -/
def get_profile_files (read : String → ReadOutcome) (profile : String) :
    List (String × String) :=
  PROFILE_FILES.map
    (fun fn => (pyRemoveAll ".txt" fn, readResult (read (profile ++ "/" ++ fn))))

/-! ### Dates and the transcript log -/

structure Date where
  year : Nat
  month : Nat
  day : Nat
deriving DecidableEq

def isLeapYear (y : Nat) : Bool :=
  y % 4 = 0 && (!(y % 100 = 0) || y % 400 = 0)

def daysInMonth (y m : Nat) : Nat :=
  if m = 2 then (if isLeapYear y then 29 else 28)
  else if m = 4 || m = 6 || m = 9 || m = 11 then 30
  else 31

/-- A calendar date `datetime.now()` can hold. -/
def ValidDate (d : Date) : Prop :=
  1 ≤ d.month ∧ d.month ≤ 12 ∧ 1 ≤ d.day ∧ d.day ≤ daysInMonth d.year d.month

instance : DecidablePred ValidDate := fun _ => by unfold ValidDate; infer_instance

def pad2 (n : Nat) : String := if n < 10 then "0" ++ toString n else toString n

def pad4 (n : Nat) : String :=
  if n < 10 then "000" ++ toString n
  else if n < 100 then "00" ++ toString n
  else if n < 1000 then "0" ++ toString n
  else toString n

/-- Format `strftime("%Y/%m/%d")`. -/
def datePath (d : Date) : String :=
  pad4 d.year ++ "/" ++ pad2 d.month ++ "/" ++ pad2 d.day

/-- The date-partitioned transcript path
`<profile>/logs/<YYYY>/<MM>/<DD>/log.txt`. -/
def log_path (profile : String) (d : Date) : String :=
  profile ++ "/logs/" ++ datePath d ++ "/log.txt"

/-- Python truthiness of an `Optional[str]`. -/
def truthyOpt : Option String → Bool
  | none => false
  | some s => !(s = "")

/-- The line-trimming step of `get_recent_messages`:
`lines = content.strip().split('\n')`,
`last_lines = lines[-limit:] if len(lines) > limit else lines`,
`'\n'.join(last_lines)`.  Note Python's `xs[-0:]` is `xs[0:]`, the whole
list, so `limit = 0` keeps every line. -/
def recentLinesOf (content : String) (limit : Nat) : String :=
  let lines := pySplitNL (pyStrip content)
  let lastLines :=
    if lines.length > limit then
      (if limit = 0 then lines else lines.drop (lines.length - limit))
    else lines
  joinWith "\n" lastLines

/-- Operation `ProfileManager.get_recent_messages`.  The source first evaluates
`yesterday = datetime.now().replace(day=today.day - 1)`, which raises
`ValueError` (modelled `none`) whenever `today.day - 1` is not a valid day
of today's month — before any read is attempted.  Otherwise today's
partition is read; when that content is falsy, yesterday's partition is
read; when both are falsy the empty string is returned, else the last
`limit` lines. -/
def get_recent_messages (read : String → ReadOutcome) (today : Date)
    (profile : String) (limit : Nat) : Option String :=
  if 1 ≤ today.day - 1 ∧ today.day - 1 ≤ daysInMonth today.year today.month then
    let yesterday : Date := ⟨today.year, today.month, today.day - 1⟩
    match read (log_path profile today) with
    | ReadOutcome.raiseDecode => none
    | ReadOutcome.raiseOther => none
    | ReadOutcome.value c1 =>
      let afterFallback : Option (Option String) :=
        if truthyOpt c1 then some c1
        else
          match read (log_path profile yesterday) with
          | ReadOutcome.raiseDecode => none
          | ReadOutcome.raiseOther => none
          | ReadOutcome.value c2 => some c2
      match afterFallback with
      | none => none
      | some c =>
        if truthyOpt c then some (recentLinesOf (c.getD "") limit)
        else some ""
  else none

/-! ### Library append (`add_to_library` over `append_to_file`) -/

/-- The decoded-text view of the remote store used by the append path. -/
def TextStore := String → Option String

/-- Operation `YandexDiskClient.append_to_file` (successful path): download the
current content when the file exists (else start empty), concatenate, and
re-upload with overwrite. -/
def append_to_file (store : TextStore) (path content : String) : TextStore :=
  fun p => if p = path then some ((store path).getD "" ++ content) else store p

/-- The timestamped block `ProfileManager.add_to_library` appends. -/
def library_entry (timestamp text : String) : String :=
  "\n\n[" ++ timestamp ++ "] ДОБАВЛЕНО:\n" ++ text

/-- Operation `ProfileManager.add_to_library` (successful path): append the
timestamped block to `<profile>/library.txt`. -/
def add_to_library (store : TextStore) (profile : String)
    (text timestamp : String) : TextStore :=
  append_to_file store (profile ++ "/library.txt") (library_entry timestamp text)

/-! ### Context assembly (`build_context`) -/

/-- Operation `ProfileManager.build_context`: read the profile files, then the recent
messages (whose `ValueError` on the first day of a month propagates,
modelled by the `Option`), then join the conditionally included labeled
parts with `'\n'.join(parts)`. -/
def build_context (read : String → ReadOutcome) (today : Date)
    (profile : String) (limit : Nat) : Option String :=
  let files := get_profile_files read profile
  let king := (files.lookup "king").getD ""
  let rules := (files.lookup "rules").getD ""
  let library := (files.lookup "library").getD ""
  match get_recent_messages read today profile limit with
  | none => none
  | some recent =>
    some (joinWith "\n"
      ((if king = "" then [] else ["ТЫ — ЛИЧНОСТЬ:\n" ++ king ++ "\n"]) ++
       (if rules = "" then [] else ["ПРАВИЛА ОБЩЕНИЯ:\n" ++ rules ++ "\n"]) ++
       (if library = "" then [] else ["ТВОИ ЗНАНИЯ И ОПЫТ:\n" ++ library ++ "\n"]) ++
       (if recent = "" then [] else ["ПОСЛЕДНИЕ СООБЩЕНИЯ В ЧАТЕ:\n" ++ recent ++ "\n"])))

/-- Assembly as the specification words it: keep, in fixed order, only the
sections whose content is non-empty, render each as its label followed by
the content, and separate them (each rendered section ends in a newline and
the join inserts another, producing the blank-line separation). -/
def specAssemble (king rules library recent : String) : String :=
  joinWith "\n"
    ((([("ТЫ — ЛИЧНОСТЬ:\n", king), ("ПРАВИЛА ОБЩЕНИЯ:\n", rules),
        ("ТВОИ ЗНАНИЯ И ОПЫТ:\n", library),
        ("ПОСЛЕДНИЕ СООБЩЕНИЯ В ЧАТЕ:\n", recent)].filter
      (fun s => !(s.2 = ""))).map (fun s => s.1 ++ s.2 ++ "\n")))

/-! ## Theorems -/

theorem decodeOne_length {l : List Nat} {c : Nat} {rest : List Nat}
    (h : decodeOne l = some (c, rest)) : rest.length < l.length := by
  match l with
  | [] => simp [decodeOne] at h
  | [b1] =>
    simp only [decodeOne] at h
    split_ifs at h <;> simp_all
  | [b1, b2] =>
    simp only [decodeOne] at h
    split_ifs at h <;> simp_all <;> omega
  | [b1, b2, b3] =>
    simp only [decodeOne] at h
    split_ifs at h <;> simp_all <;> omega
  | b1 :: b2 :: b3 :: b4 :: r4 =>
    simp only [decodeOne] at h
    split_ifs at h <;> simp_all <;> omega

theorem utf8EncodeChar_ne_nil (c : Nat) : utf8EncodeChar c ≠ [] := by
  unfold utf8EncodeChar
  split_ifs <;> simp

/-- Strict UTF-8 decoding undoes the encoding of a single scalar value at the
front of a byte stream. -/
theorem decodeOne_encodeChar (c : Nat) (hc : ValidScalar c) (rest : List Nat) :
    decodeOne (utf8EncodeChar c ++ rest) = some (c, rest) := by
  obtain ⟨hlt, hsur⟩ := hc
  rcases Nat.lt_or_ge c 0x80 with h1 | h1
  · simp [utf8EncodeChar, decodeOne, h1]
  rcases Nat.lt_or_ge c 0x800 with h2 | h2
  · have henc : utf8EncodeChar c = [0xC0 + c / 0x40, 0x80 + c % 0x40] := by
      unfold utf8EncodeChar
      rw [if_neg (by omega), if_pos h2]
    rw [henc, List.cons_append, List.cons_append, List.nil_append]
    simp only [decodeOne]
    rw [if_neg (by omega), if_neg (by omega), if_pos (by omega), if_pos (by omega)]
    simp only [Option.some.injEq, Prod.mk.injEq]
    exact ⟨by omega, trivial⟩
  rcases Nat.lt_or_ge c 0x10000 with h3 | h3
  · have henc : utf8EncodeChar c =
        [0xE0 + c / 0x1000, 0x80 + c / 0x40 % 0x40, 0x80 + c % 0x40] := by
      unfold utf8EncodeChar
      rw [if_neg (by omega), if_neg (by omega), if_pos h3]
    rw [henc, List.cons_append, List.cons_append, List.cons_append, List.nil_append]
    simp only [decodeOne]
    rw [if_neg (by omega), if_neg (by omega), if_neg (by omega), if_pos (by omega)]
    rcases Nat.lt_or_ge c 0x1000 with hA | hA
    · rw [if_pos (by omega : 0xE0 + c / 0x1000 = 0xE0),
        if_neg (by omega : ¬ (0xE0 + c / 0x1000 = 0xED)), if_pos (by omega)]
      simp only [Option.some.injEq, Prod.mk.injEq]
      exact ⟨by omega, trivial⟩
    rcases Nat.lt_or_ge c 0xD000 with hB | hB
    · rw [if_neg (by omega : ¬ (0xE0 + c / 0x1000 = 0xE0)),
        if_neg (by omega : ¬ (0xE0 + c / 0x1000 = 0xED)), if_pos (by omega)]
      simp only [Option.some.injEq, Prod.mk.injEq]
      exact ⟨by omega, trivial⟩
    rcases Nat.lt_or_ge c 0xE000 with hC | hC
    · have hs : c < 0xD800 := by omega
      rw [if_neg (by omega : ¬ (0xE0 + c / 0x1000 = 0xE0)),
        if_pos (by omega : 0xE0 + c / 0x1000 = 0xED), if_pos (by omega)]
      simp only [Option.some.injEq, Prod.mk.injEq]
      exact ⟨by omega, trivial⟩
    · rw [if_neg (by omega : ¬ (0xE0 + c / 0x1000 = 0xE0)),
        if_neg (by omega : ¬ (0xE0 + c / 0x1000 = 0xED)), if_pos (by omega)]
      simp only [Option.some.injEq, Prod.mk.injEq]
      exact ⟨by omega, trivial⟩
  · have henc : utf8EncodeChar c = [0xF0 + c / 0x40000, 0x80 + c / 0x1000 % 0x40,
        0x80 + c / 0x40 % 0x40, 0x80 + c % 0x40] := by
      unfold utf8EncodeChar
      rw [if_neg (by omega), if_neg (by omega), if_neg (by omega)]
    rw [henc, List.cons_append, List.cons_append, List.cons_append, List.cons_append,
      List.nil_append]
    simp only [decodeOne]
    rw [if_neg (by omega), if_neg (by omega), if_neg (by omega), if_neg (by omega),
      if_pos (by omega)]
    rcases Nat.lt_or_ge c 0x40000 with hA | hA
    · rw [if_pos (by omega : 0xF0 + c / 0x40000 = 0xF0),
        if_neg (by omega : ¬ (0xF0 + c / 0x40000 = 0xF4)), if_pos (by omega)]
      simp only [Option.some.injEq, Prod.mk.injEq]
      exact ⟨by omega, trivial⟩
    rcases Nat.lt_or_ge c 0x100000 with hB | hB
    · rw [if_neg (by omega : ¬ (0xF0 + c / 0x40000 = 0xF0)),
        if_neg (by omega : ¬ (0xF0 + c / 0x40000 = 0xF4)), if_pos (by omega)]
      simp only [Option.some.injEq, Prod.mk.injEq]
      exact ⟨by omega, trivial⟩
    · rw [if_neg (by omega : ¬ (0xF0 + c / 0x40000 = 0xF0)),
        if_pos (by omega : 0xF0 + c / 0x40000 = 0xF4), if_pos (by omega)]
      simp only [Option.some.injEq, Prod.mk.injEq]
      exact ⟨by omega, trivial⟩

theorem utf8DecodeAux_encode (X : List Nat) (hX : ∀ c ∈ X, ValidScalar c) :
    ∀ fuel, X.length ≤ fuel → utf8DecodeAux fuel (utf8Encode X) = some X := by
  induction X with
  | nil => intro fuel _; cases fuel <;> rfl
  | cons c cs ih =>
    intro fuel hfuel
    obtain ⟨f, rfl⟩ : ∃ f, fuel = f + 1 := by
      cases fuel with
      | zero => simp at hfuel
      | succ f => exact ⟨f, rfl⟩
    have hc : ValidScalar c := hX c (by simp)
    have hcs : ∀ x ∈ cs, ValidScalar x := fun x hx => hX x (by simp [hx])
    have hne : utf8Encode (c :: cs) ≠ [] := by
      simp only [utf8Encode]
      intro hemp
      exact utf8EncodeChar_ne_nil c (List.append_eq_nil.mp hemp).1
    obtain ⟨b, bs, hl⟩ : ∃ b bs, utf8Encode (c :: cs) = b :: bs := by
      cases hcons : utf8Encode (c :: cs) with
      | nil => exact absurd hcons hne
      | cons b bs => exact ⟨b, bs, rfl⟩
    rw [hl]
    show (match decodeOne (b :: bs) with
      | some (x, rest) => (utf8DecodeAux f rest).map (x :: ·)
      | none => none) = some (c :: cs)
    rw [← hl]
    show (match decodeOne (utf8Encode (c :: cs)) with
      | some (x, rest) => (utf8DecodeAux f rest).map (x :: ·)
      | none => none) = some (c :: cs)
    have hdec : decodeOne (utf8Encode (c :: cs)) = some (c, utf8Encode cs) := by
      simpa only [utf8Encode] using decodeOne_encodeChar c hc (utf8Encode cs)
    rw [hdec]
    have hb : cs.length ≤ f := by
      simp only [List.length_cons] at hfuel
      omega
    show Option.map (c :: ·) (utf8DecodeAux f (utf8Encode cs)) = some (c :: cs)
    rw [ih hcs f hb]
    rfl

theorem utf8Encode_length (X : List Nat) : X.length ≤ (utf8Encode X).length := by
  induction X with
  | nil => simp [utf8Encode]
  | cons c cs ih =>
    simp only [utf8Encode, List.length_append, List.length_cons]
    have h1 : 1 ≤ (utf8EncodeChar c).length := by
      rcases hcons : utf8EncodeChar c with _ | ⟨b, bs⟩
      · exact absurd hcons (utf8EncodeChar_ne_nil c)
      · simp
    omega

/-- Round trip: strict UTF-8 decoding is a left inverse of UTF-8 encoding on
sequences of Unicode scalar values. -/
theorem utf8Decode_utf8Encode (X : List Nat) (hX : ∀ c ∈ X, ValidScalar c) :
    utf8Decode (utf8Encode X) = some X :=
  utf8DecodeAux_encode X hX (utf8Encode X).length (utf8Encode_length X)



theorem fallback_decode_isSome (raw : List Nat) :
    (fallback_decode raw).isSome = true := by
  unfold fallback_decode
  cases h : tryCodecs fallbackCodecs raw <;> simp

theorem stripBOM_of_head_ne (t : List Nat) (h : t.head? ≠ some 0xFEFF) :
    stripBOM t = t := by
  cases t with
  | nil => rfl
  | cons c rest =>
    simp only [List.head?] at h
    simp only [stripBOM, if_neg (by simpa using h)]

/-- C9: the fallback decoding cascade always returns a string: its terminal
strategy, UTF-8 decoding with invalid sequences dropped, is total on byte
sequences, so the source's final branch returning `None` is unreachable. -/
theorem c9_fallback_decode_never_fails (raw : List Nat) :
    ∃ t, fallback_decode raw = some t :=
  Option.isSome_iff_exists.mp (fallback_decode_isSome raw)

/-- C10: `read_file` distinguishes an empty existing file (decoded to the
empty string) from a missing file or a failed transport operation (`None`):
it returns `none` exactly in the latter two situations. -/
theorem c10_read_file_empty_vs_missing (store : ByteStore) (p : String) :
    (store p = PathState.present [] → read_file store p = some []) ∧
    (read_file store p = none ↔
      store p = PathState.absent ∨ store p = PathState.faulty) := by
  constructor
  · intro h
    unfold read_file
    rw [h]
    decide
  · unfold read_file
    cases h : store p with
    | absent => simp
    | faulty => simp
    | present raw =>
      simp only [reduceCtorEq, or_self, iff_false]
      intro hnone
      have := fallback_decode_isSome raw
      rw [hnone] at this
      simp at this

/-- C10 witness: a store holding an empty file at `"e.txt"`. -/
theorem c10_witness :
    read_file (fun _ => PathState.present []) "e.txt" = some [] :=
  (c10_read_file_empty_vs_missing (fun _ => PathState.present []) "e.txt").1 rfl

/-- C1: contrary to the claim, `getRecent` does not degrade gracefully on
every current date: on the first day of any month the source evaluates
`datetime.now().replace(day=today.day - 1)`, i.e. `replace(day=0)`, which
raises `ValueError` out of `get_recent_messages` before any partition is
read — here evaluated on 2026-03-01, where it fails for every store and
limit. -/
theorem c1_first_of_month_raises (rv : String → Option String) (limit : Nat) :
    get_recent_messages (liftRead rv) ⟨2026, 3, 1⟩ "Logan" limit = none := by
  rfl

/-- C6 counterexample: the block appended by `add_to_library` is
`"\n\n[<timestamp>] ДОБАВЛЕНО:\n<text>"`, not the claimed
`"\n\n[<timestamp>] ADDED:\n<text>"`. -/
theorem c6_counterexample :
    add_to_library (fun _ => none) "P" "hello" "2026-01-01 00:00:00"
        "P/library.txt"
      = some "\n\n[2026-01-01 00:00:00] ДОБАВЛЕНО:\nhello" ∧
    ¬ (add_to_library (fun _ => none) "P" "hello" "2026-01-01 00:00:00"
        "P/library.txt"
      = some ("" ++ "\n\n[2026-01-01 00:00:00] ADDED:\nhello")) := by
  constructor
  · decide
  · decide

/-- C6 (amended): two successive `add_to_library` calls leave the library
asset equal to the prior content followed by A's timestamped block followed
by B's timestamped block, in call order, where each call appends exactly
the block `"\n\n[<timestamp>] ДОБАВЛЕНО:\n<text>"`. -/
theorem c6_append_in_order (store : TextStore) (P A B t1 t2 : String) :
    add_to_library (add_to_library store P A t1) P B t2 (P ++ "/library.txt")
      = some ((store (P ++ "/library.txt")).getD ""
          ++ library_entry t1 A ++ library_entry t2 B) := by
  simp [add_to_library, append_to_file]

/-- C4: with the charset detector unavailable, decoding raw bytes runs the
fixed ordered codec list UTF-8, Windows-1251, KOI8-R, CP866, ISO-8859-5
strictly and returns the first decoding that passes the looks-like-text
heuristic; when strict UTF-8 already decodes the bytes and the result
passes the heuristic, that result (BOM-stripped) is returned — in
particular the bytes of UTF-8 "Привет" decode to "Привет" (6 characters,
shorter than 10, hence accepted by the heuristic). -/
theorem c4_fallback_utf8_first (raw : List Nat) :
    (∀ t, utf8Decode raw = some t → looks_like_text t = true →
      fallback_decode raw = some (stripBOM t)) ∧
    (raw = [0xD0, 0x9F, 0xD1, 0x80, 0xD0, 0xB8, 0xD0, 0xB2, 0xD0, 0xB5, 0xD1, 0x82] →
      fallback_decode raw = some ("Привет".data.map Char.toNat) ∧
      utf8Decode raw = some ("Привет".data.map Char.toNat) ∧
      looks_like_text ("Привет".data.map Char.toNat) = true) := by
  constructor
  · intro t hdec hlook
    simp [fallback_decode, fallbackCodecs, tryCodecs, hdec, hlook]
  · rintro rfl
    refine ⟨by decide, by decide, by decide⟩

/-- C4 witness: the general branch applied to the "Привет" bytes. -/
theorem c4_witness :
    fallback_decode [0xD0, 0x9F, 0xD1, 0x80, 0xD0, 0xB8, 0xD0, 0xB2, 0xD0, 0xB5, 0xD1, 0x82]
      = some (stripBOM [0x41F, 0x440, 0x438, 0x432, 0x435, 0x442]) :=
  (c4_fallback_utf8_first
      [0xD0, 0x9F, 0xD1, 0x80, 0xD0, 0xB8, 0xD0, 0xB2, 0xD0, 0xB5, 0xD1, 0x82]).1
    [0x41F, 0x440, 0x438, 0x432, 0x435, 0x442] (by decide) (by decide)


theorem readResult_of_failedRead (o : ReadOutcome) (h : failedRead o = true) :
    readResult o = "" := by
  cases o with
  | value v =>
    cases v with
    | none => rfl
    | some c => simp [failedRead] at h
  | raiseDecode => rfl
  | raiseOther => rfl

theorem readResult_value_some (c : String) :
    readResult (ReadOutcome.value (some c)) = c := by
  by_cases h : c = "" <;> simp [readResult, h]

theorem get_profile_files_entry (read : String → ReadOutcome) (P : String)
    (k : Nat) (hk : k < 5) :
    (get_profile_files read P).get? k
      = some (pyRemoveAll ".txt" (PROFILE_FILES.get ⟨k, hk⟩),
          readResult (read (P ++ "/" ++ PROFILE_FILES.get ⟨k, hk⟩))) := by
  interval_cases k <;> rfl

/-- C2: whatever the per-asset read outcomes, when the read of one of the
five assets fails (missing file, decode failure, or any other raised
exception), `get_profile_files` still returns the mapping with exactly the
five keys `key, king, rules, library, welcome` in order, the failing
asset's value the empty string, and every asset whose read returned content
mapped to exactly that content; the call itself never raises (it is a total
function of the outcomes). -/
theorem c2_get_profile_files_defensive (read : String → ReadOutcome)
    (P : String) (i : Fin 5)
    (hfail : failedRead (read (P ++ "/" ++ PROFILE_FILES.get ⟨i.val, i.isLt⟩)) = true) :
    ((get_profile_files read P).map Prod.fst
        = ["key", "king", "rules", "library", "welcome"]) ∧
    ((get_profile_files read P).get? i.val
        = some (pyRemoveAll ".txt" (PROFILE_FILES.get ⟨i.val, i.isLt⟩), "")) ∧
    (∀ (j : Fin 5) (c : String),
      read (P ++ "/" ++ PROFILE_FILES.get ⟨j.val, j.isLt⟩) = ReadOutcome.value (some c) →
      (get_profile_files read P).get? j.val
        = some (pyRemoveAll ".txt" (PROFILE_FILES.get ⟨j.val, j.isLt⟩), c)) := by
  refine ⟨?_, ?_, ?_⟩
  · simp only [get_profile_files, PROFILE_FILES, List.map_cons, List.map_nil]
    decide
  · rw [get_profile_files_entry read P i.val i.isLt,
      readResult_of_failedRead _ hfail]
  · intro j c hj
    rw [get_profile_files_entry read P j.val j.isLt, hj, readResult_value_some]

/-- C2 witness: a store where only `king.txt` is missing. -/
theorem c2_witness :
    ((get_profile_files
        (liftRead (fun p => if p = "P/king.txt" then none else some "x")) "P").map
          Prod.fst = ["key", "king", "rules", "library", "welcome"]) ∧
    ((get_profile_files
        (liftRead (fun p => if p = "P/king.txt" then none else some "x")) "P").get? 1
      = some (pyRemoveAll ".txt" (PROFILE_FILES.get ⟨1, by decide⟩), "")) ∧
    ((get_profile_files
        (liftRead (fun p => if p = "P/king.txt" then none else some "x")) "P").get? 2
      = some (pyRemoveAll ".txt" (PROFILE_FILES.get ⟨2, by decide⟩), "x")) := by
  have h := c2_get_profile_files_defensive
    (liftRead (fun p => if p = "P/king.txt" then none else some "x")) "P" 1 (by decide)
  exact ⟨h.1, h.2.1, h.2.2 2 "x" (by decide)⟩


/-- C3 counterexample: the round trip fails for text outside the
heuristic's good set.  Writing ten euro signs (U+20AC, valid UTF-8 text, no
byte-order mark) and reading the file back does not return the written
text: strict UTF-8 decoding succeeds but fails the looks-like-text
heuristic (0 of 10 characters are good), Windows-1251 decodes but also
fails the heuristic, KOI8-R decodes but fails the heuristic, and CP866
decodes the bytes to the all-Cyrillic text `тВм`×10, which passes — so the
CP866 misreading is returned instead. -/
theorem c3_counterexample :
    read_file (write_to_file (fun _ => PathState.absent) "doc.txt"
        (List.replicate 10 0x20AC)) "doc.txt"
      = some (List.flatten (List.replicate 10 [0x442, 0x412, 0x43C])) ∧
    ¬ (read_file (write_to_file (fun _ => PathState.absent) "doc.txt"
        (List.replicate 10 0x20AC)) "doc.txt"
      = some (List.replicate 10 0x20AC)) := by
  constructor
  · decide
  · decide

/-- C3 (amended): the write/read round trip over an otherwise-quiescent
store returns exactly the written text X for every X of Unicode scalar
values with no leading byte-order mark that passes the looks-like-text
heuristic (in particular every X shorter than 10 characters); for X
failing the heuristic an earlier non-UTF-8 codec of the fallback list may
be accepted and different text returned (see the counterexample). -/
theorem c3_roundtrip_heuristic (store : ByteStore) (path : String) (X : List Nat)
    (hX : ∀ c ∈ X, ValidScalar c) (hbom : X.head? ≠ some 0xFEFF)
    (hgood : looks_like_text X = true) :
    read_file (write_to_file store path X) path = some X := by
  unfold read_file write_to_file
  rw [if_pos rfl]
  show fallback_decode (utf8Encode X) = some X
  have hdec := utf8Decode_utf8Encode X hX
  simp [fallback_decode, fallbackCodecs, tryCodecs, hdec, hgood,
    stripBOM_of_head_ne X hbom]

/-- C3 witness: the round trip on the two-character text `"hi"`. -/
theorem c3_witness :
    read_file (write_to_file (fun _ => PathState.absent) "x" [0x68, 0x69]) "x"
      = some [0x68, 0x69] :=
  c3_roundtrip_heuristic (fun _ => PathState.absent) "x" [0x68, 0x69]
    (by decide) (by decide) (by decide)


/-- C5 counterexample: with `limit = 0` the claim "the number of returned
lines never exceeds limit" fails — Python's `lines[-0:]` is `lines[0:]`,
the whole list, so `getRecent` returns every line: on a today's partition
holding `"a\nb"` the call with limit 0 returns both lines. -/
theorem c5_counterexample :
    get_recent_messages
        (liftRead (fun p => if p = log_path "P" ⟨2026, 3, 15⟩ then some "a\nb" else none))
        ⟨2026, 3, 15⟩ "P" 0
      = some "a\nb" ∧
    (pySplitNL "a\nb").length = 2 ∧ ¬ ((2 : Nat) ≤ 0) := by
  refine ⟨by decide, by decide, by decide⟩

/-- C5 (amended): for every limit ≥ 1, when a partition's content is found
(non-empty), `getRecent` strips surrounding whitespace, splits on line
boundaries and returns the last `min limit n` of the `n` lines rejoined
with newlines; the number of returned lines never exceeds `limit`, and
when the content has at most `limit` lines the entire (stripped) content
is returned.  For `limit = 0` the source instead returns all lines (see
the counterexample). -/
theorem c5_last_lines (read : String → Option String) (today : Date)
    (P : String) (limit : Nat) (content : String)
    (hd : ValidDate today) (hday : 2 ≤ today.day)
    (hread : read (log_path P today) = some content)
    (hcontent : ¬ (content = "")) (hlim : 1 ≤ limit) :
    get_recent_messages (liftRead read) today P limit
        = some (joinWith "\n" ((pySplitNL (pyStrip content)).drop
            ((pySplitNL (pyStrip content)).length
              - min limit (pySplitNL (pyStrip content)).length))) ∧
    ((pySplitNL (pyStrip content)).drop
        ((pySplitNL (pyStrip content)).length
          - min limit (pySplitNL (pyStrip content)).length)).length ≤ limit ∧
    ((pySplitNL (pyStrip content)).length ≤ limit →
      get_recent_messages (liftRead read) today P limit
        = some (joinWith "\n" (pySplitNL (pyStrip content)))) := by
  obtain ⟨hm1, hm2, hd1, hd2⟩ := hd
  have hguard : 1 ≤ today.day - 1 ∧
      today.day - 1 ≤ daysInMonth today.year today.month := by omega
  have hmain : get_recent_messages (liftRead read) today P limit
      = some (recentLinesOf content limit) := by
    unfold get_recent_messages
    rw [if_pos hguard]
    simp [liftRead, hread, truthyOpt, hcontent]
  set lines := pySplitNL (pyStrip content) with hlines
  have hrec : recentLinesOf content limit
      = joinWith "\n" (lines.drop (lines.length - min limit lines.length)) := by
    simp only [recentLinesOf, ← hlines]
    by_cases hgt : lines.length > limit
    · rw [if_pos hgt, if_neg (by omega)]
      have : lines.length - min limit lines.length = lines.length - limit := by omega
      rw [this]
    · rw [if_neg hgt]
      have : lines.length - min limit lines.length = 0 := by omega
      rw [this, List.drop_zero]
  refine ⟨hmain.trans (congrArg some hrec), ?_, ?_⟩
  · rw [List.length_drop]
    omega
  · intro hle
    rw [hmain, hrec]
    have : lines.length - min limit lines.length = 0 := by omega
    rw [this, List.drop_zero]

/-- C5 witness: three log lines, limit 2. -/
theorem c5_witness :
    get_recent_messages
        (liftRead (fun p => if p = log_path "P" ⟨2026, 3, 15⟩ then some "a\nb\nc" else none))
        ⟨2026, 3, 15⟩ "P" 2
        = some (joinWith "\n" ((pySplitNL (pyStrip "a\nb\nc")).drop
            ((pySplitNL (pyStrip "a\nb\nc")).length
              - min 2 (pySplitNL (pyStrip "a\nb\nc")).length))) ∧
    ((pySplitNL (pyStrip "a\nb\nc")).drop
        ((pySplitNL (pyStrip "a\nb\nc")).length
          - min 2 (pySplitNL (pyStrip "a\nb\nc")).length)).length ≤ 2 ∧
    ((pySplitNL (pyStrip "a\nb\nc")).length ≤ 2 →
      get_recent_messages
          (liftRead (fun p => if p = log_path "P" ⟨2026, 3, 15⟩ then some "a\nb\nc" else none))
          ⟨2026, 3, 15⟩ "P" 2
        = some (joinWith "\n" (pySplitNL (pyStrip "a\nb\nc")))) :=
  c5_last_lines
    (fun p => if p = log_path "P" ⟨2026, 3, 15⟩ then some "a\nb\nc" else none)
    ⟨2026, 3, 15⟩ "P" 2 "a\nb\nc" (by decide) (by decide) (by decide)
    (by decide) (by decide)


theorem ensureParts_spec (parts : List String) (fs : List String) (cur : String)
    (hcur : cur ∈ fs) :
    (ensureParts fs cur parts).2 = true ∧
    (∀ x ∈ fs, x ∈ (ensureParts fs cur parts).1) ∧
    (∀ p ∈ walkPaths cur parts, p ∈ (ensureParts fs cur parts).1) := by
  induction parts generalizing fs cur with
  | nil => simp [ensureParts, walkPaths]
  | cons part rest ih =>
    by_cases hp : part = ""
    · simpa [ensureParts, walkPaths, hp] using ih fs cur hcur
    · simp only [ensureParts, walkPaths, if_neg hp]
      by_cases h1 : (cur ++ "/" ++ part) ∈ fs
      · rw [if_pos h1]
        obtain ⟨ha, hb, hc⟩ := ih fs (cur ++ "/" ++ part) h1
        exact ⟨ha, hb, by
          intro p hq
          rcases List.mem_cons.mp hq with rfl | hq
          · exact hb _ h1
          · exact hc _ hq⟩
      · rw [if_neg h1, if_pos hcur]
        obtain ⟨ha, hb, hc⟩ := ih ((cur ++ "/" ++ part) :: fs) (cur ++ "/" ++ part)
          (by simp)
        refine ⟨ha, fun x hx => hb x (by simp [hx]), ?_⟩
        intro p hq
        rcases List.mem_cons.mp hq with rfl | hq
        · exact hb _ (by simp)
        · exact hc _ hq

theorem ensureParts_already (parts : List String) (fs : List String) (cur : String)
    (hall : ∀ p ∈ walkPaths cur parts, p ∈ fs) :
    ensureParts fs cur parts = (fs, true) := by
  induction parts generalizing cur with
  | nil => simp [ensureParts]
  | cons part rest ih =>
    by_cases hp : part = ""
    · simp only [walkPaths, if_pos hp] at hall
      simpa [ensureParts, hp] using ih cur hall
    · simp only [walkPaths, if_neg hp] at hall
      have hmem : (cur ++ "/" ++ part) ∈ fs := hall _ (by simp)
      simp only [ensureParts, if_neg hp]
      rw [if_pos hmem]
      exact ih (cur ++ "/" ++ part) (fun p hq => hall p (by simp [hq]))

/-- C7: `ensure_folder_exists` walks the path component by component,
creating every missing intermediate segment (after the call every prefix
path of the walk exists), succeeds whenever the root folder exists, and is
idempotent: a second call on the resulting directory structure changes
nothing and reports success (no duplicate-creation fault, since existence
is checked before each creation call). -/
theorem c7_ensure_folder_exists_idempotent (rootFolder : String)
    (fs : List String) (remotePath : String)
    (hroot : ("/" ++ rootFolder) ∈ fs) :
    (ensure_folder_exists rootFolder fs remotePath).2 = true ∧
    (∀ p ∈ walkPaths ("/" ++ rootFolder) (pySplitSlash remotePath),
      p ∈ (ensure_folder_exists rootFolder fs remotePath).1) ∧
    ensure_folder_exists rootFolder
        (ensure_folder_exists rootFolder fs remotePath).1 remotePath
      = ((ensure_folder_exists rootFolder fs remotePath).1, true) := by
  obtain ⟨ha, _, hc⟩ := ensureParts_spec (pySplitSlash remotePath) fs
    ("/" ++ rootFolder) hroot
  exact ⟨ha, hc, ensureParts_already _ _ _ hc⟩

/-- C7 witness: creating `a/b` under an existing root. -/
theorem c7_witness :
    (ensure_folder_exists "XLog" ["/XLog"] "a/b").2 = true ∧
    (∀ p ∈ walkPaths "/XLog" (pySplitSlash "a/b"),
      p ∈ (ensure_folder_exists "XLog" ["/XLog"] "a/b").1) ∧
    ensure_folder_exists "XLog" (ensure_folder_exists "XLog" ["/XLog"] "a/b").1 "a/b"
      = ((ensure_folder_exists "XLog" ["/XLog"] "a/b").1, true) := by
  have h := c7_ensure_folder_exists_idempotent "XLog" ["/XLog"] "a/b" (by decide)
  exact h


theorem build_parts_eq_specAssemble (king rules library recent : String) :
    joinWith "\n"
      ((if king = "" then [] else ["ТЫ — ЛИЧНОСТЬ:\n" ++ king ++ "\n"]) ++
       (if rules = "" then [] else ["ПРАВИЛА ОБЩЕНИЯ:\n" ++ rules ++ "\n"]) ++
       (if library = "" then [] else ["ТВОИ ЗНАНИЯ И ОПЫТ:\n" ++ library ++ "\n"]) ++
       (if recent = "" then [] else ["ПОСЛЕДНИЕ СООБЩЕНИЯ В ЧАТЕ:\n" ++ recent ++ "\n"]))
    = specAssemble king rules library recent := by
  by_cases h1 : king = "" <;> by_cases h2 : rules = "" <;>
    by_cases h3 : library = "" <;> by_cases h4 : recent = "" <;>
    simp [specAssemble, h1, h2, h3, h4]

theorem get_recent_messages_liftRead_isSome (rv : String → Option String)
    (d : Date) (P : String) (limit : Nat)
    (h1 : 1 ≤ d.day - 1) (h2 : d.day - 1 ≤ daysInMonth d.year d.month) :
    (get_recent_messages (liftRead rv) d P limit).isSome = true := by
  unfold get_recent_messages
  rw [if_pos ⟨h1, h2⟩]
  simp only [liftRead]
  cases hq : truthyOpt (rv (log_path P d)) <;>
    cases hr : truthyOpt (rv (log_path P ⟨d.year, d.month, d.day - 1⟩)) <;>
    simp [hq, hr]

/-- C8: `buildContext` concatenates, in fixed order, only the non-empty
labeled sections — persona, rules, knowledge/library, recent transcript
(sourced with the given limit) — with blank-line separation
(`specAssemble`); the "Mira" profile with only persona and rules present
and no transcript yields exactly those two labeled sections, and an
entirely empty profile yields the empty string without error.  (Stated on
dates whose day is at least 2; on the first day of a month the
`get_recent_messages` call inside raises, see C1.) -/
theorem c8_build_context_sections :
    (∀ (rv : String → Option String) (d : Date) (P : String) (limit : Nat),
      ValidDate d → 2 ≤ d.day →
      build_context (liftRead rv) d P limit
        = some (specAssemble
            (((get_profile_files (liftRead rv) P).lookup "king").getD "")
            (((get_profile_files (liftRead rv) P).lookup "rules").getD "")
            (((get_profile_files (liftRead rv) P).lookup "library").getD "")
            ((get_recent_messages (liftRead rv) d P limit).getD ""))) ∧
    build_context (liftRead (fun p =>
        if p = "Mira/king.txt" then some "Mira is calm."
        else if p = "Mira/rules.txt" then some "Be kind."
        else if p = "Mira/library.txt" then some "" else none)) ⟨2026, 3, 15⟩ "Mira" 5
      = some "ТЫ — ЛИЧНОСТЬ:\nMira is calm.\n\nПРАВИЛА ОБЩЕНИЯ:\nBe kind.\n" ∧
    build_context (liftRead (fun _ => none)) ⟨2026, 3, 15⟩ "Empty" 10 = some "" := by
  refine ⟨?_, by decide, by decide⟩
  intro rv d P limit hd hday
  obtain ⟨hm1, hm2, hd1, hd2⟩ := hd
  have hs := get_recent_messages_liftRead_isSome rv d P limit (by omega) (by omega)
  obtain ⟨r, hr⟩ := Option.isSome_iff_exists.mp hs
  simp only [build_context]
  rw [hr]
  simp only [Option.getD_some]
  exact congrArg some (build_parts_eq_specAssemble _ _ _ r)

/-- C8 witness: the general part applied to an empty profile. -/
theorem c8_witness :
    build_context (liftRead (fun _ => none)) ⟨2026, 4, 10⟩ "W" 5
      = some (specAssemble
          (((get_profile_files (liftRead (fun _ => none)) "W").lookup "king").getD "")
          (((get_profile_files (liftRead (fun _ => none)) "W").lookup "rules").getD "")
          (((get_profile_files (liftRead (fun _ => none)) "W").lookup "library").getD "")
          ((get_recent_messages (liftRead (fun _ => none)) ⟨2026, 4, 10⟩ "W" 5).getD "")) :=
  c8_build_context_sections.1 (fun _ => none) ⟨2026, 4, 10⟩ "W" 5 (by decide) (by decide)

end XLog
